import Mathlib

/-!
Verification development for the gst-rag repository.

The only executable source under version control here is the browser client
`frontend/app.js`; it is embedded shallowly below as pure Lean functions over
an explicit `ClientState`.  DOM mutations (message list, input placeholder,
CSS classes, modal visibility) are recorded as fields of the state; the
`fetch` call is modelled by passing the outcome of the request as a value of
`FetchOutcome`.  The backend clarification core (Session Store, Question
Composer, Clarification Session Manager) is not present in the sources, so it
is modelled from the specification where a claim needs it; those definitions
say so in their doc comments.
-/

/-- `const API_URL = 'http://localhost:8002'` (app.js line 2). -/
def API_URL : String := "http://localhost:8002"

/-- The input placeholder text restored by `updateClarificationUI(false)`
(app.js line 228). -/
def defaultPlaceholder : String := "Ask your question about GST regulations..."

/-- JavaScript truthiness of a string-or-null-or-undefined value: `null`,
`undefined` and the empty string are falsy, every other string is truthy. -/
def truthyStr : Option String → Bool
  | none => false
  | some s => s != ""

/-- JavaScript string coercion used by template literals: `undefined` prints
as the text "undefined". -/
def optJsStr : Option String → String
  | none => "undefined"
  | some s => s

/-- The client-side pending clarification object created in the submit
handler (app.js lines 160-163): `{ question: data.pending_question,
clarification: data.clarification_question }`. -/
structure PendingClar where
  question : Option String
  clarification : Option String
deriving Repr, DecidableEq

/-- One chat message appended by `addMessage(text, type, isClarification)`
(app.js lines 186-219). -/
structure Msg where
  text : String
  mtype : String
  isClar : Bool
deriving Repr, DecidableEq

/-- The mutable state of the client: the three module-level variables of
app.js (lines 5-7), the browser `localStorage`, and the DOM state the script
manipulates. -/
structure ClientState where
  currentSessionId : Option String
  pendingClarification : Option PendingClar
  currentUsername : Option String
  localStorage : List (String × String)
  messages : List Msg
  placeholder : String
  clarificationPendingClass : Bool
  welcomePresent : Bool
  loading : Bool
  modalVisible : Bool
deriving Repr, DecidableEq

/-- The state of a freshly loaded page: all three session variables are
`null` (app.js lines 5-7). -/
def initClientState : ClientState :=
  { currentSessionId := none
    pendingClarification := none
    currentUsername := none
    localStorage := []
    messages := []
    placeholder := defaultPlaceholder
    clarificationPendingClass := false
    welcomePresent := true
    loading := false
    modalVisible := false }

/-- The relevant fields of the `/query` response consumed by the submit
handler (app.js lines 151-173).  Absent/undefined JSON fields are `none`. -/
structure QueryResponse where
  answer : String
  session_id : Option String
  requires_clarification : Bool
  clarification_question : Option String
  pending_question : Option String
deriving Repr, DecidableEq

/-- Outcome of the `fetch` in the submit handler: a parsed ok response, a
non-ok HTTP response (app.js lines 146-149, `message` is `error.detail` or
the fallback text), or a thrown network error. -/
inductive FetchOutcome where
  | success (data : QueryResponse)
  | httpError (message : String)
  | networkError (message : String)
deriving Repr, DecidableEq

/-- The JSON request body built in the submit handler (app.js lines 123-136);
`session_id` and `username` are present only when the corresponding variable
is truthy. -/
structure RequestBody where
  question : String
  force_refresh : Bool
  session_id : Option String
  username : Option String
deriving Repr, DecidableEq

/-- Request construction, app.js lines 123-136. -/
def buildRequestBody (st : ClientState) (question : String) : RequestBody :=
  { question := question
    force_refresh := false
    session_id := if truthyStr st.currentSessionId then st.currentSessionId else none
    username := if truthyStr st.currentUsername then st.currentUsername else none }

/-- `String.prototype.trim()` of JavaScript: strip leading and trailing
whitespace, modelled directly on the character list so it is kernel
computable. -/
def jsTrim (s : String) : String :=
  String.mk (((s.data.dropWhile Char.isWhitespace).reverse.dropWhile Char.isWhitespace).reverse)

/-- The text displayed on a failed request (app.js lines 177-180). -/
def errorText (message : String) : String :=
  "Error: " ++ message ++ ". Please make sure the API server is running on " ++ API_URL

/-- `addMessage` restricted to its effect on the message list (app.js lines
186-219): append one message div. -/
def addMsg (st : ClientState) (text mtype : String) (isClar : Bool) : ClientState :=
  { st with messages := st.messages ++ [{ text := text, mtype := mtype, isClar := isClar }] }

/-- `updateClarificationUI` (app.js lines 221-231): when called with `true`
while `pendingClarification` is truthy it sets the placeholder from the
stored clarification question, otherwise it resets the placeholder. -/
def updateClarificationUI (st : ClientState) (needs : Bool) : ClientState :=
  match needs, st.pendingClarification with
  | true, some pc =>
    { st with placeholder := "Please answer: " ++ optJsStr pc.clarification
              clarificationPendingClass := true }
  | _, _ =>
    { st with placeholder := defaultPlaceholder
              clarificationPendingClass := false }

/-- The body of the `try` block after a successful parse of an ok response
(app.js lines 153-173). -/
def processResponse (st : ClientState) (data : QueryResponse) : ClientState :=
  let st := if truthyStr data.session_id then { st with currentSessionId := data.session_id } else st
  if data.requires_clarification then
    let pc : PendingClar :=
      { question := data.pending_question, clarification := data.clarification_question }
    let st := { st with pendingClarification := some pc }
    let st := updateClarificationUI st true
    addMsg st data.answer "assistant" true
  else
    let st :=
      if st.pendingClarification.isSome then
        updateClarificationUI { st with pendingClarification := none } false
      else st
    addMsg st data.answer "assistant" false

/-- The form submit handler (app.js lines 103-184).  Returns the new state
and the request body that was sent, `none` when the guard on empty input
returned early and no request was made. -/
def handleSubmit (st : ClientState) (inputValue : String) (outcome : FetchOutcome) :
    ClientState × Option RequestBody :=
  let question := jsTrim inputValue
  if question = "" then (st, none)
  else
    let st := { st with welcomePresent := false }
    let st := addMsg st question "user" false
    let st := { st with loading := true }
    let req := buildRequestBody st question
    let st :=
      match outcome with
      | .success data => processResponse st data
      | .httpError m => addMsg st (errorText m) "error" false
      | .networkError m => addMsg st (errorText m) "error" false
    ({ st with loading := false }, some req)

/-- The change-user button handler (app.js lines 70-76): remove the stored
username, null out all three session variables, show the username modal. -/
def handleChangeUser (st : ClientState) : ClientState :=
  { st with localStorage := st.localStorage.filter (fun kv => kv.1 != "gst_username")
            currentUsername := none
            currentSessionId := none
            pendingClarification := none
            modalVisible := true }

/-! ## Spec-modelled backend core

The Session Store, Question Composer and Clarification Session Manager are
not among the repository sources; the following definitions are modelled
from the specification text (sections 3, 4.1, 4.3 and 4.4) so that the
claims about them can be stated. -/

/-- Modelled from the spec: `PendingClarification` of section 3 — the
backend pending-clarification record, missing from the sources. -/
structure PendingClarification where
  originalQuestion : String
  clarificationQuestion : String
  askedAt : Nat
deriving Repr, DecidableEq

/-- Modelled from the spec: `Session` of section 3 — backend conversation
state, missing from the sources.  Time is measured in minutes. -/
structure Session where
  createdAt : Nat
  lastActivityAt : Nat
  pending : Option PendingClarification
deriving Repr, DecidableEq

/-- Modelled from the spec: the fixed 5-minute inactivity window of
sections 3 and 4.1, in minutes. -/
def inactivityWindow : Nat := 5

/-- Modelled from the spec: `isExpired(session, now)` of section 4.1 —
true once `now - lastActivityAt` exceeds the inactivity window. -/
def isExpired (s : Session) (now : Nat) : Bool :=
  inactivityWindow < now - s.lastActivityAt

/-- Modelled from the spec: the Session Store of section 4.1, a keyed map
from opaque session identifiers to sessions, missing from the sources. -/
abbrev SessionStore := List (String × Session)

/-- Modelled from the spec: `get(sessionId)` of section 4.1 with lazy
expiry — an expired session is treated as absent on access; `get` on an
unknown identifier returns absent, never an error. -/
def getSession (store : SessionStore) (sid : String) (now : Nat) : Option Session :=
  match store.lookup sid with
  | some s => if isExpired s now then none else some s
  | none => none

/-- Replace or insert one session in the store. -/
def setSession (store : SessionStore) (sid : String) (s : Session) : SessionStore :=
  (sid, s) :: store.filter (fun kv => kv.1 != sid)

/-- Modelled from the spec: `compose(original, clarificationAnswer)` of
section 4.4, missing from the sources.  Pure; an empty clarification answer
is non-resolving and yields the "no merge possible" signal (`none`) instead
of a string; otherwise the original question is disambiguated by appending
the clarification answer. -/
def compose (original clarificationAnswer : String) : Option String :=
  if clarificationAnswer = "" then none
  else some (original ++ " " ++ clarificationAnswer)

/-- Modelled from the spec: the verdict of the Clarification Detector
(section 4.2). -/
inductive Verdict where
  | ambiguous (clarificationQuestion : String)
  | unambiguous
deriving Repr, DecidableEq

/-- Modelled from the spec: the structured response of `resolve`
(sections 4.3 and 6).  `resolvedQuestion` is the question forwarded to the
Answer Engine, `none` while a clarification is being asked. -/
structure ResolveResult where
  session_id : String
  requires_clarification : Bool
  clarification_question : Option String
  pending_question : Option String
  resolvedQuestion : Option String
deriving Repr, DecidableEq

/-- Modelled from the spec: rules 1 and 2 of section 4.3 applied to a fresh
question on session `sid`. -/
def freshResolve (question : String) (sid : String) (now : Nat) (verdict : Verdict)
    (s : Session) : ResolveResult × Session :=
  match verdict with
  | .unambiguous =>
    ({ session_id := sid
       requires_clarification := false
       clarification_question := none
       pending_question := none
       resolvedQuestion := some question },
     { s with pending := none, lastActivityAt := now })
  | .ambiguous cq =>
    ({ session_id := sid
       requires_clarification := true
       clarification_question := some cq
       pending_question := some question
       resolvedQuestion := none },
     { s with pending := some { originalQuestion := question, clarificationQuestion := cq, askedAt := now }
              lastActivityAt := now })

/-- Modelled from the spec: `resolve(question, sessionId)` of section 4.3,
the Clarification Session Manager, missing from the sources.  `freshSid` is
the identifier the store would generate for a newly created session; lazy
expiry makes an expired session indistinguishable from an absent one. -/
def resolve (store : SessionStore) (question : String) (sessionId : Option String)
    (now : Nat) (verdict : Verdict) (freshSid : String) : ResolveResult × SessionStore :=
  let startFresh : ResolveResult × SessionStore :=
    let (res, s) := freshResolve question freshSid now verdict
      { createdAt := now, lastActivityAt := now, pending := none }
    (res, setSession store freshSid s)
  match sessionId with
  | none => startFresh
  | some sid =>
    match getSession store sid now with
    | none => startFresh
    | some s =>
      match s.pending with
      | some pc =>
        match compose pc.originalQuestion question with
        | some rq =>
          ({ session_id := sid
             requires_clarification := false
             clarification_question := none
             pending_question := none
             resolvedQuestion := some rq },
           setSession store sid { s with pending := none, lastActivityAt := now })
        | none =>
          ({ session_id := sid
             requires_clarification := true
             clarification_question := some pc.clarificationQuestion
             pending_question := some pc.originalQuestion
             resolvedQuestion := none },
           setSession store sid { s with lastActivityAt := now })
      | none =>
        let (res, s2) := freshResolve question sid now verdict s
        (res, setSession store sid s2)

/-! ## Character-level model of the `addMessage` text formatting

`addMessage` (app.js lines 198-204) splits the text on newlines, maps each
whitespace-only line to `<br>`, joins with newlines and then replaces every
newline with `<br>`, assigning the result to `innerHTML` with no escaping.
Strings are modelled as lists of characters so the formatting pipeline is
reasoned about character by character. -/

/-- Strings as character lists for the formatting model. -/
abbrev Str := List Char

/-- `text.split('\n')`: split a character list at every newline; always
returns at least one (possibly empty) line. -/
def splitNl : Str → List Str
  | [] => [[]]
  | c :: cs =>
    match splitNl cs with
    | [] => [[]]
    | l :: ls => if c = '\n' then [] :: l :: ls else (c :: l) :: ls

/-- `line.trim() === ''`: the line consists of whitespace only. -/
def isBlank (l : Str) : Bool := l.all fun c => c.isWhitespace

/-- The replacement text `<br>`. -/
def brStr : Str := ['<', 'b', 'r', '>']

/-- The per-line map of app.js lines 199-202: a whitespace-only line becomes
`<br>`, any other line is kept verbatim. -/
def mapLine (l : Str) : Str := if isBlank l then brStr else l

/-- `Array.prototype.join(sep)`. -/
def joinWith (sep : Str) : List Str → Str
  | [] => []
  | [l] => l
  | l :: ls => l ++ sep ++ joinWith sep ls

/-- `.replace(/\n/g, rep)`: replace every newline character by `rep`. -/
def replaceNl (rep : Str) (l : Str) : Str :=
  l.flatMap fun c => if c = '\n' then rep else [c]

/-- The complete formatting pipeline of `addMessage` (app.js lines 199-204):
the value assigned to `content.innerHTML`. -/
def formatMessage (text : Str) : Str :=
  replaceNl brStr (joinWith ['\n'] ((splitNl text).map mapLine))

/-- The transformation as the claim words it: each whitespace-only line
becomes `<br>` and each newline becomes `<br>`, with all other characters
kept verbatim and unescaped. -/
def claimFormat (text : Str) : Str :=
  joinWith brStr ((splitNl text).map mapLine)

/-! ## Conversation traces

A conversation is the client state folded over a list of submit events, each
event being the raw input value together with the outcome of its request. -/

/-- One submit event applied to the state. -/
def stepClient (st : ClientState) (ev : String × FetchOutcome) : ClientState :=
  (handleSubmit st ev.1 ev.2).1

/-- A whole conversation: fold the submit handler over the events. -/
def runClient (st : ClientState) (events : List (String × FetchOutcome)) : ClientState :=
  events.foldl stepClient st

/-- The session identifier held after processing a list of events, computed
directly from the responses: the last truthy `session_id` carried by a
successful response to a non-empty submission, or the accumulator if none. -/
def sessionAfter (acc : Option String) : List (String × FetchOutcome) → Option String
  | [] => acc
  | ev :: rest =>
    let acc2 :=
      if jsTrim ev.1 = "" then acc
      else
        match ev.2 with
        | .success d => if truthyStr d.session_id then d.session_id else acc
        | _ => acc
    sessionAfter acc2 rest

/-! ## Helper lemmas about the client -/

theorem updateClarificationUI_sessionId (st : ClientState) (b : Bool) :
    (updateClarificationUI st b).currentSessionId = st.currentSessionId := by
  unfold updateClarificationUI
  rcases b with _ | _ <;> rcases h : st.pendingClarification with _ | pc <;> simp [h]

theorem processResponse_sessionId (st : ClientState) (data : QueryResponse) :
    (processResponse st data).currentSessionId =
      if truthyStr data.session_id then data.session_id else st.currentSessionId := by
  unfold processResponse addMsg
  rcases h : data.requires_clarification with _ | _ <;>
    rcases hs : truthyStr data.session_id with _ | _ <;>
      simp [h, hs, updateClarificationUI_sessionId] <;>
        split <;> simp [updateClarificationUI_sessionId]

theorem handleSubmit_sessionId (st : ClientState) (input : String) (outcome : FetchOutcome) :
    (handleSubmit st input outcome).1.currentSessionId =
      if jsTrim input = "" then st.currentSessionId
      else
        match outcome with
        | .success d => if truthyStr d.session_id then d.session_id else st.currentSessionId
        | _ => st.currentSessionId := by
  unfold handleSubmit
  by_cases h : jsTrim input = ""
  · simp [h]
  · rcases outcome with data | m | m <;> simp [h, addMsg, processResponse_sessionId]

/-- Invariant carried by `currentSessionId`: it only ever holds `null` or a
non-empty string, because app.js line 154 guards the store with truthiness. -/
def truthyInv (o : Option String) : Prop := ∀ s, o = some s → s ≠ ""

theorem truthyInv_none : truthyInv none := by
  intro s h
  simp at h

theorem truthyStr_eq_true {o : Option String} (h : truthyStr o = true) : truthyInv o := by
  intro s hs
  subst hs
  simpa [truthyStr] using h

theorem runClient_sessionId (events : List (String × FetchOutcome)) :
    ∀ (st : ClientState) (acc : Option String), st.currentSessionId = acc → truthyInv acc →
      (runClient st events).currentSessionId = sessionAfter acc events ∧
        truthyInv (sessionAfter acc events) := by
  induction events with
  | nil =>
    intro st acc h hinv
    exact ⟨by simpa [runClient] using h, hinv⟩
  | cons ev rest ih =>
    intro st acc h hinv
    have hstep := handleSubmit_sessionId st ev.1 ev.2
    have hrun : runClient st (ev :: rest) = runClient (stepClient st ev) rest := rfl
    rw [hrun]
    by_cases he : jsTrim ev.1 = ""
    · have h1 : (stepClient st ev).currentSessionId = acc := by
        simp [stepClient, hstep, he, h]
      have h2 : sessionAfter acc (ev :: rest) = sessionAfter acc rest := by
        simp [sessionAfter, he]
      rw [h2]
      exact ih _ acc h1 hinv
    · rcases hout : ev.2 with data | m | m <;> rw [hout] at hstep
      · by_cases ht : truthyStr data.session_id = true
        · have h1 : (stepClient st ev).currentSessionId = data.session_id := by
            simp [stepClient, hstep, he, hout, ht]
          have h2 : sessionAfter acc (ev :: rest) = sessionAfter data.session_id rest := by
            simp [sessionAfter, he, hout, ht]
          rw [h2]
          exact ih _ data.session_id h1 (truthyStr_eq_true ht)
        · have h1 : (stepClient st ev).currentSessionId = acc := by
            simp [stepClient, hstep, he, hout, ht, h]
          have h2 : sessionAfter acc (ev :: rest) = sessionAfter acc rest := by
            simp [sessionAfter, he, hout, ht]
          rw [h2]
          exact ih _ acc h1 hinv
      · have h1 : (stepClient st ev).currentSessionId = acc := by
          simp [stepClient, hstep, he, hout, h]
        have h2 : sessionAfter acc (ev :: rest) = sessionAfter acc rest := by
          simp [sessionAfter, he, hout]
        rw [h2]
        exact ih _ acc h1 hinv
      · have h1 : (stepClient st ev).currentSessionId = acc := by
          simp [stepClient, hstep, he, hout, h]
        have h2 : sessionAfter acc (ev :: rest) = sessionAfter acc rest := by
          simp [sessionAfter, he, hout]
        rw [h2]
        exact ih _ acc h1 hinv

theorem handleSubmit_request_sessionId (st : ClientState) (input : String)
    (outcome : FetchOutcome) (h : ¬ jsTrim input = "") :
    ((handleSubmit st input outcome).2).map RequestBody.session_id =
      some (if truthyStr st.currentSessionId then st.currentSessionId else none) := by
  unfold handleSubmit
  simp [h, buildRequestBody, addMsg]

theorem lookup_filter_ne (l : List (String × String)) (k : String) :
    (l.filter fun kv => kv.1 != k).lookup k = none := by
  induction l with
  | nil => rfl
  | cons kv rest ih =>
    by_cases hk : kv.1 = k
    · simp [List.filter_cons, hk, ih]
    · have hk2 : (k == kv.1) = false := by
        simp [beq_iff_eq]
        exact fun he => hk he.symm
      simp [List.filter_cons, List.lookup, hk, hk2, ih]

/-! ## Claim theorems about the client -/

/-- Claim C8: a submission whose whitespace-trimmed value is empty returns
from the handler before doing anything: no request is sent, no message is
added, and the entire client state — `currentSessionId` and
`pendingClarification` included — is untouched (app.js lines 106-107). -/
theorem c8_empty_input_is_noop (st : ClientState) (input : String)
    (outcome : FetchOutcome) (h : jsTrim input = "") :
    handleSubmit st input outcome = (st, none) := by
  unfold handleSubmit
  simp [h]

/-- Witness for C8 at the concrete whitespace-only input "   ". -/
theorem c8_empty_input_is_noop_witness :
    handleSubmit initClientState "   " (.networkError "down") = (initClientState, none) :=
  c8_empty_input_is_noop initClientState "   " (.networkError "down") (by decide)

/-- Claim C9: the change-user control removes the stored key `gst_username`
from localStorage and nulls `currentUsername`, `currentSessionId` and
`pendingClarification`, so a subsequent request body carries no session
identifier (app.js lines 70-76). -/
theorem c9_change_user_clears_state (st : ClientState) (q : String) :
    (handleChangeUser st).localStorage.lookup "gst_username" = none ∧
    (handleChangeUser st).currentUsername = none ∧
    (handleChangeUser st).currentSessionId = none ∧
    (handleChangeUser st).pendingClarification = none ∧
    (buildRequestBody (handleChangeUser st) q).session_id = none := by
  refine ⟨lookup_filter_ne st.localStorage "gst_username", rfl, rfl, rfl, ?_⟩
  simp [buildRequestBody, handleChangeUser, truthyStr]

/-- Claim C4: when the request fails — the fetch throws or the response is
not ok — the conversation state (`currentSessionId`, `pendingClarification`,
also `currentUsername` and the placeholder) is exactly what it was before the
request, only the user's message and an error message are appended, and the
request that was sent is the one a retry would send again (app.js lines
146-149 throw before any state is written; lines 175-180 only display). -/
theorem c4_failed_request_preserves_state (st : ClientState) (input message : String)
    (outcome : FetchOutcome) (h : ¬ jsTrim input = "")
    (herr : outcome = .httpError message ∨ outcome = .networkError message) :
    (handleSubmit st input outcome).1.currentSessionId = st.currentSessionId ∧
    (handleSubmit st input outcome).1.pendingClarification = st.pendingClarification ∧
    (handleSubmit st input outcome).1.currentUsername = st.currentUsername ∧
    (handleSubmit st input outcome).1.placeholder = st.placeholder ∧
    (handleSubmit st input outcome).1.messages = st.messages ++
      [{ text := jsTrim input, mtype := "user", isClar := false },
       { text := errorText message, mtype := "error", isClar := false }] ∧
    (handleSubmit st input outcome).2 = some (buildRequestBody st (jsTrim input)) := by
  rcases herr with h2 | h2 <;> subst h2 <;>
    (unfold handleSubmit; simp [h, addMsg, buildRequestBody])

/-- Witness for C4 at a concrete failing request. -/
theorem c4_failed_request_preserves_state_witness :
    (handleSubmit initClientState "hello" (.httpError "boom")).1.currentSessionId =
        initClientState.currentSessionId ∧
      (handleSubmit initClientState "hello" (.httpError "boom")).1.pendingClarification =
        initClientState.pendingClarification ∧
      (handleSubmit initClientState "hello" (.httpError "boom")).1.currentUsername =
        initClientState.currentUsername ∧
      (handleSubmit initClientState "hello" (.httpError "boom")).1.placeholder =
        initClientState.placeholder ∧
      (handleSubmit initClientState "hello" (.httpError "boom")).1.messages =
        initClientState.messages ++
          [{ text := "hello", mtype := "user", isClar := false },
           { text := errorText "boom", mtype := "error", isClar := false }] ∧
      (handleSubmit initClientState "hello" (.httpError "boom")).2 =
        some (buildRequestBody initClientState "hello") := by
  have h := c4_failed_request_preserves_state initClientState "hello" "boom"
    (.httpError "boom") (by decide) (Or.inl rfl)
  simpa using h

/-- Claim C2: the client holds at most one pending clarification by
construction — `pendingClarification` is a single nullable variable (app.js
line 6) — and processing a response that carries a clarification overwrites
it with the new pair whatever was held before, rather than stacking (app.js
lines 159-164). -/
theorem c2_pending_clarification_replaced (st : ClientState) (input : String)
    (data : QueryResponse) (h : ¬ jsTrim input = "")
    (hc : data.requires_clarification = true) :
    (handleSubmit st input (.success data)).1.pendingClarification =
      some { question := data.pending_question, clarification := data.clarification_question } := by
  unfold handleSubmit processResponse
  by_cases hs : truthyStr data.session_id = true <;>
    simp [h, hc, hs, addMsg, updateClarificationUI]

/-- Witness for C2: a clarification response replaces an already-stored
pending clarification with the new pair. -/
theorem c2_pending_clarification_replaced_witness :
    (handleSubmit
        { initClientState with
            pendingClarification := some { question := some "old q", clarification := some "old c" } }
        "second question"
        (.success { answer := "Which Act?", session_id := some "S1",
                    requires_clarification := true,
                    clarification_question := some "Which Act?",
                    pending_question := some "second question" })).1.pendingClarification =
      some { question := some "second question", clarification := some "Which Act?" } := by
  exact c2_pending_clarification_replaced
    { initClientState with
        pendingClarification := some { question := some "old q", clarification := some "old c" } }
    "second question"
    { answer := "Which Act?", session_id := some "S1", requires_clarification := true,
      clarification_question := some "Which Act?", pending_question := some "second question" }
    (by decide) rfl

/-- Claim C3: the first request of a conversation carries no session
identifier, and after any successful response bearing a truthy `session_id`
every subsequent request carries that identifier verbatim until a later
response supplies a different truthy one (app.js lines 128-131 and 153-156).
`sessionAfter none events` is exactly the last such identifier, `none` when
no response has carried one. -/
theorem c3_request_carries_last_session_id (events : List (String × FetchOutcome))
    (input : String) (outcome : FetchOutcome) (h : ¬ jsTrim input = "") :
    ((handleSubmit (runClient initClientState events) input outcome).2).map
        RequestBody.session_id = some (sessionAfter none events) := by
  obtain ⟨hsid, hinv⟩ := runClient_sessionId events initClientState none rfl truthyInv_none
  rw [handleSubmit_request_sessionId _ _ _ h, hsid]
  rcases hacc : sessionAfter none events with _ | s
  · simp [truthyStr]
  · have hne : s ≠ "" := by
      rw [hacc] at hinv
      exact hinv s rfl
    simp [truthyStr, hne]

/-- Witness for C3: after a response carrying session id "S1" and one
carrying none, the next request still carries "S1" verbatim; checked on a
concrete two-event conversation. -/
theorem c3_request_carries_last_session_id_witness :
    ((handleSubmit
        (runClient initClientState
          [("What is section 17(5)?",
            .success { answer := "Which Act?", session_id := some "S1",
                       requires_clarification := true,
                       clarification_question := some "Which Act?",
                       pending_question := some "What is section 17(5)?" }),
           ("ignored", .networkError "down")])
        "CGST Act" (.networkError "down")).2).map RequestBody.session_id =
      some (some "S1") := by
  have h := c3_request_carries_last_session_id
    [("What is section 17(5)?",
      .success { answer := "Which Act?", session_id := some "S1",
                 requires_clarification := true,
                 clarification_question := some "Which Act?",
                 pending_question := some "What is section 17(5)?" }),
     ("ignored", .networkError "down")]
    "CGST Act" (.networkError "down") (by decide)
  rw [h]
  decide

/-- `subseq` occurs contiguously inside `hay`. -/
def containsSub (needle : List Char) : List Char → Bool
  | [] => needle.isEmpty
  | c :: t => needle.isPrefixOf (c :: t) || containsSub needle t

/-- Claim C7 counterexample: on a failed request the client does not show a
generic "could not process" outcome; it interpolates the internal failure
message into the displayed text (app.js lines 177-180).  At the concrete
failure detail "database timeout at 10.0.0.5" the displayed message contains
that detail verbatim and contains "could not process" nowhere. -/
theorem c7_counterexample :
    ((handleSubmit initClientState "What is GST?"
          (.httpError "database timeout at 10.0.0.5")).1.messages.getLast?).map Msg.text =
        some (errorText "database timeout at 10.0.0.5") ∧
      containsSub "database timeout at 10.0.0.5".data
          (errorText "database timeout at 10.0.0.5").data = true ∧
      containsSub "could not process".data
          (errorText "database timeout at 10.0.0.5").data = false := by
  refine ⟨?_, ?_, ?_⟩ <;> decide

/-- Claim C7 as amended: successful responses are displayed as an answer or
a clarification prompt, but on a failed request the displayed message is
exactly `Error: <message>. Please make sure the API server is running on
<API_URL>` — the internal failure message is interpolated into what the user
sees rather than a generic "could not process" outcome. -/
theorem c7_amended_error_display (st : ClientState) (input message : String)
    (outcome : FetchOutcome) (h : ¬ jsTrim input = "")
    (herr : outcome = .httpError message ∨ outcome = .networkError message) :
    (handleSubmit st input outcome).1.messages.getLast? =
      some { text := errorText message, mtype := "error", isClar := false } := by
  rcases herr with h2 | h2 <;> subst h2 <;>
    (unfold handleSubmit; simp [h, addMsg])

/-- Witness for the amended C7 at a concrete failing request. -/
theorem c7_amended_error_display_witness :
    (handleSubmit initClientState "What is GST?" (.networkError "fetch failed")).1.messages.getLast? =
      some { text := errorText "fetch failed", mtype := "error", isClar := false } :=
  c7_amended_error_display initClientState "What is GST?" "fetch failed"
    (.networkError "fetch failed") (by decide) (Or.inr rfl)

/-- Claim C1 counterexample: the original claim's "the placeholder is reset"
conjunct for `requires_clarification = false` fails on a reachable state.
Trace: an ambiguous question sets the placeholder to `Please answer: Which
Act?`; the change-user control (app.js lines 70-76) nulls
`pendingClarification` without touching the placeholder; a later normal
answer takes the else-branch at app.js lines 166-173, which calls
`updateClarificationUI(false)` only when a clarification is pending, so the
stale placeholder survives. -/
theorem c1_counterexample :
    (handleSubmit
          (handleChangeUser
            (handleSubmit initClientState "What is section 17(5)?"
                (.success { answer := "Which Act?", session_id := some "S1",
                            requires_clarification := true,
                            clarification_question := some "Which Act?",
                            pending_question := some "What is section 17(5)?" })).1)
          "What is GST?"
          (.success { answer := "GST is a tax.", session_id := some "S2",
                      requires_clarification := false,
                      clarification_question := none,
                      pending_question := none })).1.pendingClarification = none ∧
      (handleSubmit
          (handleChangeUser
            (handleSubmit initClientState "What is section 17(5)?"
                (.success { answer := "Which Act?", session_id := some "S1",
                            requires_clarification := true,
                            clarification_question := some "Which Act?",
                            pending_question := some "What is section 17(5)?" })).1)
          "What is GST?"
          (.success { answer := "GST is a tax.", session_id := some "S2",
                      requires_clarification := false,
                      clarification_question := none,
                      pending_question := none })).1.placeholder =
        "Please answer: " ++ "Which Act?" ∧
      ¬ (handleSubmit
          (handleChangeUser
            (handleSubmit initClientState "What is section 17(5)?"
                (.success { answer := "Which Act?", session_id := some "S1",
                            requires_clarification := true,
                            clarification_question := some "Which Act?",
                            pending_question := some "What is section 17(5)?" })).1)
          "What is GST?"
          (.success { answer := "GST is a tax.", session_id := some "S2",
                      requires_clarification := false,
                      clarification_question := none,
                      pending_question := none })).1.placeholder =
        defaultPlaceholder := by
  refine ⟨?_, ?_, ?_⟩ <;> decide

/-- Claim C1 as amended: on a successful response, if `requires_clarification`
is true the client stores the pair (pending_question, clarification_question),
displays the answer marked as a clarification prompt, and sets the input
placeholder to `Please answer: <clarification_question>`; if it is false any
stored pending clarification is cleared and the answer is displayed unmarked,
but the placeholder is reset only when a clarification was actually pending —
when none was pending the placeholder is left exactly as it was, which can be
stale after the change-user control (app.js lines 159-173 and 221-231). -/
theorem c1_clarification_response_handling (st : ClientState) (input : String)
    (data : QueryResponse) (cq : String) (h : ¬ jsTrim input = "")
    (hcq : data.requires_clarification = true → data.clarification_question = some cq) :
    (data.requires_clarification = true →
        (handleSubmit st input (.success data)).1.pendingClarification =
            some { question := data.pending_question, clarification := data.clarification_question } ∧
          (handleSubmit st input (.success data)).1.placeholder = "Please answer: " ++ cq ∧
          (handleSubmit st input (.success data)).1.messages.getLast? =
            some { text := data.answer, mtype := "assistant", isClar := true }) ∧
      (data.requires_clarification = false →
        (handleSubmit st input (.success data)).1.pendingClarification = none ∧
          (st.pendingClarification.isSome →
            (handleSubmit st input (.success data)).1.placeholder = defaultPlaceholder) ∧
          (st.pendingClarification = none →
            (handleSubmit st input (.success data)).1.placeholder = st.placeholder) ∧
          (handleSubmit st input (.success data)).1.messages.getLast? =
            some { text := data.answer, mtype := "assistant", isClar := false }) := by
  constructor
  · intro hc
    have hcq2 := hcq hc
    unfold handleSubmit processResponse
    by_cases hs : truthyStr data.session_id = true <;>
      simp [h, hc, hs, hcq2, addMsg, updateClarificationUI, optJsStr]
  · intro hc
    unfold handleSubmit processResponse
    by_cases hp : st.pendingClarification.isSome
    · have hp2 : ¬ st.pendingClarification = none := by
        intro he
        rw [he] at hp
        simp at hp
      by_cases hs : truthyStr data.session_id = true <;>
        simp [h, hc, hs, hp, hp2, addMsg, updateClarificationUI]
    · have hp2 : st.pendingClarification = none := Option.not_isSome_iff_eq_none.mp hp
      by_cases hs : truthyStr data.session_id = true <;>
        simp [h, hc, hs, hp2, addMsg, updateClarificationUI]

/-- Witness for the amended C1: the clarification branch checked on
scenario B of the spec. -/
theorem c1_clarification_response_handling_witness :
    (handleSubmit initClientState "What is section 17(5)?"
          (.success { answer := "Which Act?", session_id := some "S1",
                      requires_clarification := true,
                      clarification_question := some "Which Act?",
                      pending_question := some "What is section 17(5)?" })).1.pendingClarification =
        some { question := some "What is section 17(5)?", clarification := some "Which Act?" } ∧
      (handleSubmit initClientState "What is section 17(5)?"
          (.success { answer := "Which Act?", session_id := some "S1",
                      requires_clarification := true,
                      clarification_question := some "Which Act?",
                      pending_question := some "What is section 17(5)?" })).1.placeholder =
        "Please answer: " ++ "Which Act?" := by
  have h := c1_clarification_response_handling initClientState "What is section 17(5)?"
    { answer := "Which Act?", session_id := some "S1", requires_clarification := true,
      clarification_question := some "Which Act?",
      pending_question := some "What is section 17(5)?" }
    "Which Act?" (by decide) (fun _ => rfl)
  obtain ⟨h1, h2, h3⟩ := h.1 rfl
  exact ⟨h1, h2⟩

/-! ## Lemmas about the formatting pipeline -/

theorem splitNl_no_nl : ∀ (cs : Str), ∀ l ∈ splitNl cs, '\n' ∉ l := by
  intro cs
  induction cs with
  | nil =>
    intro l hl
    rw [splitNl] at hl
    simp at hl
    subst hl
    simp
  | cons c t ih =>
    intro l hl
    rw [splitNl] at hl
    rcases hsp : splitNl t with _ | ⟨l2, ls⟩
    · rw [hsp] at hl
      simp at hl
      subst hl
      simp
    · rw [hsp] at hl
      dsimp only at hl
      by_cases hc : c = '\n'
      · rw [if_pos hc] at hl
        rcases List.mem_cons.mp hl with rfl | hmem
        · simp
        · exact ih l (by rw [hsp]; exact hmem)
      · rw [if_neg hc] at hl
        rcases List.mem_cons.mp hl with rfl | hmem
        · intro hmem2
          rcases List.mem_cons.mp hmem2 with he | he
          · exact hc he.symm
          · exact ih l2 (by rw [hsp]; exact List.mem_cons_self l2 ls) he
        · exact ih l (by rw [hsp]; exact List.mem_cons_of_mem l2 hmem)

theorem replaceNl_append (rep a b : Str) :
    replaceNl rep (a ++ b) = replaceNl rep a ++ replaceNl rep b := by
  simp [replaceNl]

theorem replaceNl_no_nl (rep : Str) : ∀ (l : Str), '\n' ∉ l → replaceNl rep l = l := by
  intro l
  induction l with
  | nil => intro _; rfl
  | cons c t ih =>
    intro h
    have hc : ¬ c = '\n' := fun he => h (by simp [he])
    have ht : '\n' ∉ t := fun hm => h (by simp [hm])
    have hstep : replaceNl rep (c :: t) = (if c = '\n' then rep else [c]) ++ replaceNl rep t := rfl
    rw [hstep, if_neg hc, ih ht]
    rfl

theorem brStr_no_nl : '\n' ∉ brStr := by decide

theorem mapLine_no_nl (l : Str) (h : '\n' ∉ l) : '\n' ∉ mapLine l := by
  unfold mapLine
  by_cases hb : isBlank l = true <;> simp [hb]
  · exact brStr_no_nl
  · exact h

theorem replaceNl_joinWith (ls : List Str) (h : ∀ l ∈ ls, '\n' ∉ l) :
    replaceNl brStr (joinWith ['\n'] ls) = joinWith brStr ls := by
  induction ls with
  | nil => rfl
  | cons l t ih =>
    rcases t with _ | ⟨l2, t2⟩
    · exact replaceNl_no_nl brStr l (h l (by simp))
    · have h1 : '\n' ∉ l := h l (by simp)
      have h2 : ∀ x ∈ l2 :: t2, '\n' ∉ x := fun x hx => h x (by simp [hx])
      calc replaceNl brStr (joinWith ['\n'] (l :: l2 :: t2))
          = replaceNl brStr (l ++ ['\n'] ++ joinWith ['\n'] (l2 :: t2)) := rfl
        _ = replaceNl brStr l ++ replaceNl brStr ['\n'] ++
              replaceNl brStr (joinWith ['\n'] (l2 :: t2)) := by
            rw [replaceNl_append, replaceNl_append]
        _ = l ++ brStr ++ joinWith brStr (l2 :: t2) := by
            rw [replaceNl_no_nl brStr l h1, ih h2]
            rfl
        _ = joinWith brStr (l :: l2 :: t2) := rfl

theorem splitNl_single (cs : Str) (h : '\n' ∉ cs) : splitNl cs = [cs] := by
  induction cs with
  | nil => rfl
  | cons c t ih =>
    have hc : ¬ c = '\n' := fun he => h (by simp [he])
    have ht : '\n' ∉ t := fun hm => h (by simp [hm])
    rw [splitNl, ih ht]
    simp [hc]

/-- Claim C10: the value assigned to `innerHTML` equals the input text with
each whitespace-only line replaced by `<br>` and each newline replaced by
`<br>`; the transformation depends on the text alone, and a single non-blank
line — HTML markup included — passes through verbatim with no escaping. -/
theorem c10_format_message_spec (text : Str) :
    formatMessage text = claimFormat text ∧
      (('\n' ∉ text ∧ isBlank text = false) → formatMessage text = text) := by
  constructor
  · unfold formatMessage claimFormat
    apply replaceNl_joinWith
    intro l hl
    rcases List.mem_map.mp hl with ⟨l0, hl0, he⟩
    rw [← he]
    exact mapLine_no_nl l0 (splitNl_no_nl text l0 hl0)
  · rintro ⟨hnl, hblank⟩
    unfold formatMessage
    rw [splitNl_single text hnl]
    have hmap : mapLine text = text := by unfold mapLine; simp [hblank]
    simp [joinWith, hmap]
    exact replaceNl_no_nl brStr text hnl

/-- Witness for C10 at a concrete markup-bearing text: `<b>hi</b>` is left
exactly as written, markup unescaped. -/
theorem c10_format_message_spec_witness :
    formatMessage ['<', 'b', '>', 'h', 'i', '<', '/', 'b', '>'] =
        claimFormat ['<', 'b', '>', 'h', 'i', '<', '/', 'b', '>'] ∧
      formatMessage ['<', 'b', '>', 'h', 'i', '<', '/', 'b', '>'] =
        ['<', 'b', '>', 'h', 'i', '<', '/', 'b', '>'] :=
  ⟨(c10_format_message_spec _).1,
   (c10_format_message_spec ['<', 'b', '>', 'h', 'i', '<', '/', 'b', '>']).2 (by decide)⟩

/-! ## Claim theorems about the spec-modelled backend core -/

/-- Claim C6: `compose` is pure and deterministic — identical inputs always
yield the identical output (it is a function of its two arguments alone) —
and an empty clarification answer yields the "no merge possible" signal
(`none`) rather than a string. -/
theorem c6_compose_pure_empty_none (o c : String) :
    compose o c = compose o c ∧ compose o "" = none :=
  ⟨rfl, rfl⟩

/-- Claim C5: once `now - lastActivityAt` exceeds the fixed 5-minute
inactivity window, the session is treated as absent on the next access —
`getSession` discovers the expiry lazily — and a new input arriving with the
expired identifier behaves exactly like a request carrying no session
identifier: the stale pending clarification is discarded and the input is
resolved as a fresh question under rules 1 and 2. -/
theorem c5_expired_session_treated_fresh (store : SessionStore) (sid : String)
    (s : Session) (pc : PendingClarification) (question : String) (now : Nat)
    (verdict : Verdict) (freshSid : String)
    (hlook : store.lookup sid = some s)
    (_hpend : s.pending = some pc)
    (hexp : inactivityWindow < now - s.lastActivityAt) :
    getSession store sid now = none ∧
      resolve store question (some sid) now verdict freshSid =
        resolve store question none now verdict freshSid := by
  have hget : getSession store sid now = none := by
    unfold getSession isExpired
    rw [hlook]
    simp [hexp]
  refine ⟨hget, ?_⟩
  unfold resolve
  simp only [hget]

/-- Witness for C5: a session whose clarification was asked 6 minutes ago is
treated as absent and resolved as a fresh question. -/
theorem c5_expired_session_treated_fresh_witness :
    getSession
        [("S1", { createdAt := 0, lastActivityAt := 0,
                  pending := some { originalQuestion := "What is section 17(5)?",
                                    clarificationQuestion := "Which Act?", askedAt := 0 } })]
        "S1" 6 = none ∧
      resolve
          [("S1", { createdAt := 0, lastActivityAt := 0,
                    pending := some { originalQuestion := "What is section 17(5)?",
                                      clarificationQuestion := "Which Act?", askedAt := 0 } })]
          "CGST Act" (some "S1") 6 .unambiguous "S2" =
        resolve
          [("S1", { createdAt := 0, lastActivityAt := 0,
                    pending := some { originalQuestion := "What is section 17(5)?",
                                      clarificationQuestion := "Which Act?", askedAt := 0 } })]
          "CGST Act" none 6 .unambiguous "S2" :=
  c5_expired_session_treated_fresh _ "S1"
    { createdAt := 0, lastActivityAt := 0,
      pending := some { originalQuestion := "What is section 17(5)?",
                        clarificationQuestion := "Which Act?", askedAt := 0 } }
    { originalQuestion := "What is section 17(5)?",
      clarificationQuestion := "Which Act?", askedAt := 0 }
    "CGST Act" 6 .unambiguous "S2" (by decide) rfl (by decide)
